import Mathlib

/-!
Shallow embedding of `pypiserver_testing` (files `system.py`, `fixtures.py`)
and verification of the specification's claims about it.

Conventions of the embedding:
* a Python generator of command tokens becomes a Lean function returning
  `List String`, built yield by yield;
* the process environment `os.environ` becomes an association list
  `Env := List (String × String)` with Python-dict lookup/assignment
  semantics (`Env.getv`, `Env.setv`, `Env.update`);
* a `@contextmanager` scoped mutator becomes a function taking the state at
  entry, the state transformation performed by the body of the `with` block,
  and how the block exits (`BlockExit.normal` or `BlockExit.raised`, the
  latter meaning an exception was thrown into the generator at its `yield`);
  the function returns the process state once the scope has been left.
  Statements after a bare `yield` (no try/finally in the source) do not run
  on the raised path;
* `subprocess.Popen` results are abstracted as a `ProcResult` record
  (return code, stdout, stderr) supplied as a parameter;
* the filesystem seen by the venv fixture becomes a list of directory paths,
  each path a list of components.
-/

set_option linter.unusedVariables false

namespace PypiserverTesting

/-! ## Process environment model (`os.environ`) -/

/-- The process environment: an association list from variable names to
values, with Python-`dict` semantics (no duplicate keys in real
environments; lookup returns the first binding). -/
abbrev Env := List (String × String)

/-- `environ[k]` as a total lookup returning `none` for a `KeyError`. -/
def Env.getv : Env → String → Option String
  | [], _ => none
  | (k', v) :: rest, k => if k' = k then some v else Env.getv rest k

/-- `environ[k] = v`: replace the binding of `k` if present, else append. -/
def Env.setv : Env → String → String → Env
  | [], k, v => [(k, v)]
  | (k', v') :: rest, k, v =>
      if k' = k then (k, v) :: rest else (k', v') :: Env.setv rest k v

/-- `environ.update(src)`: assign every binding of `src` in order. -/
def Env.update (e : Env) (src : Env) : Env :=
  src.foldl (fun acc p => Env.setv acc p.1 p.2) e

/-- How the body of a `with` block exits: normal completion, or an
exception raised inside the block (thrown into the generator at `yield`). -/
inductive BlockExit where
  | normal
  | raised
deriving Repr, DecidableEq

/-! ## `system.py`: scoped mutators -/

/-- `add_to_path(target)` from `system.py`: reads `environ['PATH']`
(`none` models the `KeyError` when it is absent), prepends `target` with a
`:` separator, runs the block, and — only when the block completes
normally, since the source has no `try/finally` — writes the starting
value back. -/
def add_to_path (target : String) (env : Env) (block : Env → Env)
    (ex : BlockExit) : Option Env :=
  match Env.getv env "PATH" with
  | none => none
  | some start =>
    let env1 := Env.setv env "PATH" (target ++ ":" ++ start)
    let env2 := block env1
    some (match ex with
          | BlockExit.normal => Env.setv env2 "PATH" start
          | BlockExit.raised => env2)

/-- `changedir(target)` from `system.py`: remembers `getcwd()`, changes to
`target`, runs the block, and changes back only on normal completion
(the source has no `try/finally`). The working directory is the state. -/
def changedir (target : String) (cwd : String) (block : String → String)
    (ex : BlockExit) : String :=
  let start := cwd
  let cwd2 := block target
  match ex with
  | BlockExit.normal => start
  | BlockExit.raised => cwd2

/-- `activate_venv(venv_dir)` from `system.py`: snapshots the environment,
sets the `VIRTUAL_ENV` and `__PYVENV_LAUNCHER__` markers, wraps the block
in `add_to_path(venv_dir + "/bin")`, and on normal completion clears the
environment and re-applies the snapshot. On the raised path the exception
propagates through both generators before either restoration line runs. -/
def activate_venv (venv_dir : String) (env : Env) (block : Env → Env)
    (ex : BlockExit) : Option Env :=
  let start_env := env
  let env1 := Env.setv env "VIRTUAL_ENV" venv_dir
  let env2 := Env.setv env1 "__PYVENV_LAUNCHER__" (venv_dir ++ "/bin/python")
  match add_to_path (venv_dir ++ "/bin") env2 block ex with
  | none => none
  | some env3 =>
    match ex with
    | BlockExit.normal => some (Env.update [] start_env)
    | BlockExit.raised => some env3

/-! ## `system.py`: command builders -/

/-- The operations for which `pip_cmd` appends a default index. -/
def index_ops : List String := ["install", "download", "search"]

/-- The index-flag aliases recognized by `pip_cmd`. -/
def index_flags : List String := ["-i", "--index", "--index-url"]

/-- `pip_cmd(default_index, *args)` from `system.py`. Note the source
yields the literal string `'http://localhost:8080'`, not `default_index`. -/
def pip_cmd (default_index : String) (args : List String) : List String :=
  ["pip"] ++ args ++
    (if (∃ i ∈ index_ops, i ∈ args) ∧ ¬ (∃ i ∈ index_flags, i ∈ args)
     then ["-i", "http://localhost:8080"]
     else [])

/-- `pypiserver_cmd(root, cmd='run', *args)` from `system.py`; the `root`
argument is passed already stringified. -/
def pypiserver_cmd (root : String) (cmd : String) (args : List String) :
    List String :=
  ["pypiserver"] ++ [cmd] ++ [root] ++ args

/-- `twine_cmd(repo_url, *args)` from `system.py`. -/
def twine_cmd (repo_url : String) (args : List String) : List String :=
  ["twine"] ++ args ++ ["--repository-url", repo_url] ++
    (if "-u" ∈ args then [] else ["-u", "username"]) ++
    (if "-p" ∈ args then [] else ["-p", "password"])

/-- `create_venv_cmd(venv_dir, python=None, *args)` from `system.py`.
`py2` stands for the `PY2` constant imported from the module `const`
(absent from the sources; it selects the historical invocation style), and
`sys_executable` for `sys.executable`. The source never yields `args`. -/
def create_venv_cmd (py2 : Bool) (sys_executable : String)
    (venv_dir : String) (python : Option String) : List String :=
  let python := python.getD sys_executable
  (if py2 then ["virtualenv", "-p", python] else [python, "-m", "venv"]) ++
    [venv_dir]

/-! ## `system.py`: synchronous runner -/

/-- Abstraction of a completed subprocess: its return code and the raw
stdout/stderr text (already decoded from utf-8). -/
structure ProcResult where
  returncode : Int
  stdout : String
  stderr : String
deriving Repr, DecidableEq

/-- `subprocess.CalledProcessError` as raised by `run`. -/
structure CalledProcessError where
  returncode : Int
  cmd : List String
  output : Option String
  stderr : Option String
deriving Repr, DecidableEq

/-- The (non-raising) return value of `run`: either the raw return code or
the captured stdout (`none` when no pipe was attached). -/
inductive RunReturn where
  | code (c : Int)
  | out (s : Option String)
deriving Repr, DecidableEq

/-- `run(cmd, raise_on_err=True, capture=False)` from `system.py`,
parameterized by the behaviour `proc` of the spawned subprocess. `out` and
`err` are `none` exactly when no pipe was attached (`capture=False`). -/
def run (cmd : List String) (proc : ProcResult)
    (raise_on_err : Bool) (capture : Bool) :
    Except CalledProcessError RunReturn :=
  let out : Option String := if capture then some proc.stdout else none
  let err : Option String := if capture then some proc.stderr else none
  if raise_on_err = true ∧ proc.returncode ≠ 0 then
    Except.error ⟨proc.returncode, cmd, out, err⟩
  else if capture then Except.ok (RunReturn.out out)
  else Except.ok (RunReturn.code proc.returncode)

/-! ## `fixtures.py`: the venv fixture -/

/-- A filesystem path, as a list of components. -/
abbrev FPath := List String

/-- The filesystem as the set of existing directory paths. -/
abbrev Fs := List FPath

/-- `t.under p` is true when path `p` lies in the tree rooted at `t`
(including `t` itself): `t` is a componentwise prefix of `p`. -/
def FPath.under : FPath → FPath → Bool
  | [], _ => true
  | _ :: _, [] => false
  | a :: as, b :: bs => a == b && FPath.under as bs

/-- `shutil.rmtree(target)`: remove the directory tree rooted at `target`. -/
def rmtree (fs : Fs) (target : FPath) : Fs :=
  fs.filter (fun p => !(FPath.under target p))

/-- Outcome of the tests that ran inside the fixture's scope. -/
inductive TestOutcome where
  | passed
  | failed
deriving Repr, DecidableEq

/-- What one activation of the fixture did: the value it yielded, the
venv-creation command it ran, and the filesystem after its teardown. -/
structure FixtureExec where
  value : FPath
  venvCmd : List String
  finalFs : Fs
deriving Repr, DecidableEq

/-- The body of `venv_fixture` inside `create_venv_fixture` from
`fixtures.py`: `mkdtemp()` creates the fresh directory `root`,
`path.join(venv_root, 'venv')` is `root ++ ["venv"]`,
`run(create_venv_cmd(venv_dir, python=python))` creates the venv
directory, the fixture yields `venv_dir`, and after the scope's tests run
(pytest resumes the generator past the `yield` whether they passed or
failed) `rmtree(venv_dir)` executes. -/
def venv_fixture (py2 : Bool) (sys_executable : String)
    (python : Option String) (fs : Fs) (root : FPath)
    (outcome : TestOutcome) : FixtureExec :=
  let venv_root := root
  let fs1 := venv_root :: fs
  let venv_dir := venv_root ++ ["venv"]
  let cmd := create_venv_cmd py2 sys_executable
    (String.intercalate "/" venv_dir) python
  let fs2 := venv_dir :: fs1
  let fs3 := rmtree fs2 venv_dir
  { value := venv_dir, venvCmd := cmd, finalFs := fs3 }

/-! ## Helper lemmas -/

theorem Env.getv_setv_ne (e : Env) (k k' v : String) (h : k' ≠ k) :
    Env.getv (Env.setv e k' v) k = Env.getv e k := by
  induction e with
  | nil => simp [Env.setv, Env.getv, h]
  | cons p rest ih =>
    obtain ⟨pk, pv⟩ := p
    by_cases hp : pk = k'
    · subst hp
      simp [Env.setv, Env.getv, h]
    · simp [Env.setv, Env.getv, hp]
      by_cases hk : pk = k
      · simp [hk]
      · simp [hk, ih]

theorem Env.setv_not_mem (e : Env) (k v : String)
    (h : k ∉ e.map Prod.fst) : Env.setv e k v = e ++ [(k, v)] := by
  induction e with
  | nil => rfl
  | cons p rest ih =>
    simp only [List.map_cons, List.mem_cons, not_or] at h
    simp [Env.setv, Ne.symm h.1, ih h.2]

theorem Env.update_disjoint (s : Env) :
    ∀ acc : Env, (∀ k ∈ s.map Prod.fst, k ∉ acc.map Prod.fst) →
      (s.map Prod.fst).Nodup → Env.update acc s = acc ++ s := by
  induction s with
  | nil => intro acc _ _; simp [Env.update]
  | cons p rest ih =>
    intro acc hd hn
    obtain ⟨k, v⟩ := p
    have hk : k ∉ acc.map Prod.fst := hd k (by simp)
    have hstep : Env.update acc ((k, v) :: rest)
        = Env.update (Env.setv acc k v) rest := rfl
    rw [hstep, Env.setv_not_mem acc k v hk]
    simp only [List.map_cons, List.nodup_cons] at hn
    rw [ih (acc ++ [(k, v)]) ?_ hn.2]
    · simp
    · intro k' hk'
      simp only [List.map_append, List.mem_append, List.map_cons, List.map_nil,
        List.mem_singleton, not_or]
      refine ⟨hd k' (by simp [hk']), ?_⟩
      intro hkk
      exact hn.1 (hkk ▸ hk')

theorem Env.update_nil (s : Env) (h : (s.map Prod.fst).Nodup) :
    Env.update [] s = s := by
  have := Env.update_disjoint s [] (by simp) h
  simpa using this

theorem FPath.under_refl (t : FPath) : FPath.under t t = true := by
  induction t with
  | nil => rfl
  | cons a as ih => simp [FPath.under, ih]

theorem FPath.under_length (t : FPath) :
    ∀ p : FPath, FPath.under t p = true → t.length ≤ p.length := by
  induction t with
  | nil => intro p _; simp
  | cons a as ih =>
    intro p h
    cases p with
    | nil => simp [FPath.under] at h
    | cons b bs =>
      simp only [FPath.under, Bool.and_eq_true] at h
      have := ih bs h.2
      simp only [List.length_cons]
      omega

/-! ## Claim theorems -/

/-- C9: `pypiserver_cmd` yields exactly the tool name, the subcommand, the
stringified root, and the extra arguments in order; in particular with the
default subcommand `run` and no extras, `pypiserver_cmd "/srv/pkgs"` yields
`["pypiserver", "run", "/srv/pkgs"]`. -/
theorem pypiserver_cmd_spec (root cmd : String) (args : List String) :
    pypiserver_cmd root cmd args = "pypiserver" :: cmd :: root :: args ∧
    pypiserver_cmd "/srv/pkgs" "run" [] = ["pypiserver", "run", "/srv/pkgs"] :=
  ⟨rfl, rfl⟩

/-- C6: `twine_cmd` yields `twine`, the arguments, then `--repository-url`
and the URL; the default pair `-u username` is appended exactly when `-u`
is absent from the arguments and `-p password` exactly when `-p` is
absent, so omitting both appends both default credential pairs. -/
theorem twine_cmd_spec (repo_url : String) (args : List String) :
    ("-u" ∉ args → "-p" ∉ args → twine_cmd repo_url args
        = "twine" :: args
            ++ ["--repository-url", repo_url, "-u", "username", "-p", "password"]) ∧
    ("-u" ∈ args → "-p" ∉ args → twine_cmd repo_url args
        = "twine" :: args ++ ["--repository-url", repo_url, "-p", "password"]) ∧
    ("-u" ∉ args → "-p" ∈ args → twine_cmd repo_url args
        = "twine" :: args ++ ["--repository-url", repo_url, "-u", "username"]) ∧
    ("-u" ∈ args → "-p" ∈ args → twine_cmd repo_url args
        = "twine" :: args ++ ["--repository-url", repo_url]) := by
  refine ⟨?_, ?_, ?_, ?_⟩ <;> intro h1 h2 <;> simp [twine_cmd, h1, h2]

theorem twine_cmd_spec_witness :
    twine_cmd "http://localhost:8080" ["upload", "dist/pkg.tar.gz"]
      = ["twine", "upload", "dist/pkg.tar.gz", "--repository-url",
         "http://localhost:8080", "-u", "username", "-p", "password"] :=
  (twine_cmd_spec "http://localhost:8080" ["upload", "dist/pkg.tar.gz"]).1
    (by decide) (by decide)

/-- C10: only the exact short tokens `-u` and `-p` suppress the credential
defaults: an argument list containing `--username` but not `-u` still gets
`-u username` appended, and one containing `--password` but not `-p` still
gets `-p password` appended. -/
theorem twine_cmd_long_flags_do_not_suppress (repo_url : String)
    (args : List String) :
    ("--username" ∈ args → "-u" ∉ args →
      ∃ tail, twine_cmd repo_url args
        = "twine" :: args ++ ["--repository-url", repo_url, "-u", "username"]
            ++ tail) ∧
    ("--password" ∈ args → "-p" ∉ args →
      ∃ front, twine_cmd repo_url args = front ++ ["-p", "password"]) := by
  constructor
  · intro _ hu
    exact ⟨(if "-p" ∈ args then [] else ["-p", "password"]),
      by simp [twine_cmd, hu]⟩
  · intro _ hp
    exact ⟨"twine" :: args ++ ["--repository-url", repo_url]
        ++ (if "-u" ∈ args then [] else ["-u", "username"]),
      by simp [twine_cmd, hp]⟩

theorem twine_cmd_long_flags_do_not_suppress_witness :
    ∃ tail, twine_cmd "http://localhost:8080" ["--username", "admin"]
      = "twine" :: ["--username", "admin"]
          ++ ["--repository-url", "http://localhost:8080", "-u", "username"]
          ++ tail :=
  (twine_cmd_long_flags_do_not_suppress "http://localhost:8080"
    ["--username", "admin"]).1 (by decide) (by decide)

/-- C5: `pip_cmd` appends nothing beyond `pip` and the supplied arguments
when the arguments already contain an index-flag alias, and likewise when
they contain none of the index-fetching operations. -/
theorem pip_cmd_no_append (default_index : String) (args : List String)
    (h : (∃ i ∈ index_flags, i ∈ args) ∨ ¬ (∃ i ∈ index_ops, i ∈ args)) :
    pip_cmd default_index args = "pip" :: args := by
  have hc : ¬ ((∃ i ∈ index_ops, i ∈ args) ∧ ¬ (∃ i ∈ index_flags, i ∈ args)) := by
    rcases h with h | h
    · exact fun hand => hand.2 h
    · exact fun hand => h hand.1
  unfold pip_cmd
  rw [if_neg hc]
  simp

theorem pip_cmd_no_append_witness :
    pip_cmd "http://localhost:8080" ["install", "foo", "-i", "http://other"]
        = ["pip", "install", "foo", "-i", "http://other"] ∧
    pip_cmd "http://localhost:8080" ["freeze"] = ["pip", "freeze"] :=
  ⟨pip_cmd_no_append "http://localhost:8080"
      ["install", "foo", "-i", "http://other"] (Or.inl (by decide)),
   pip_cmd_no_append "http://localhost:8080" ["freeze"] (Or.inr (by decide))⟩

/-- C1: evaluation at the failing input: `pip_cmd` with default index
`http://example.com` and arguments `["install"]` appends the hardcoded
literal `http://localhost:8080`, not the supplied default index, because
the source yields the literal instead of the `default_index` parameter. -/
theorem pip_cmd_hardcodes_index :
    pip_cmd "http://example.com" ["install"]
        = ["pip", "install", "-i", "http://localhost:8080"] ∧
    pip_cmd "http://example.com" ["install"]
        ≠ ["pip", "install", "-i", "http://example.com"] := by
  constructor
  · decide
  · decide

/-- C8: whenever `run` does not raise, it returns the decoded stdout when
capture was requested and the raw return code otherwise. -/
theorem run_ok_value (cmd : List String) (proc : ProcResult)
    (raise_on_err capture : Bool) (r : RunReturn)
    (h : run cmd proc raise_on_err capture = Except.ok r) :
    r = if capture then RunReturn.out (some proc.stdout)
        else RunReturn.code proc.returncode := by
  by_cases hr : raise_on_err = true ∧ proc.returncode ≠ 0
  · simp [run, hr] at h
  · cases capture
    · simp [run, hr] at h
      simp [← h]
    · simp [run, hr] at h
      simp [← h]

theorem run_ok_value_witness :
    RunReturn.out (some "hello")
      = if true then RunReturn.out (some "hello") else RunReturn.code 0 :=
  run_ok_value ["echo", "hello"] ⟨0, "hello", ""⟩ true true
    (RunReturn.out (some "hello")) rfl

/-- C3: counterexample to the claim as stated: with `raise_on_err=False`,
a nonzero exit and `capture=True`, `run` returns the decoded stdout, not
the return code. -/
theorem run_no_raise_capture_not_code :
    run ["cmd"] ⟨1, "out text", "err text"⟩ false true
        = Except.ok (RunReturn.out (some "out text")) ∧
    run ["cmd"] ⟨1, "out text", "err text"⟩ false true
        ≠ Except.ok (RunReturn.code 1) := by
  constructor
  · rfl
  · intro h
    simp [run] at h

/-- C3 (amended): with `raise_on_err=True` and a nonzero exit, `run`
raises a `CalledProcessError` whose return code is the subprocess's return
code, for every capture setting; with `raise_on_err=False` it returns the
return code when capture was not requested, and the decoded stdout when it
was. -/
theorem run_nonzero_exit_spec (cmd : List String) (proc : ProcResult)
    (capture : Bool) (h : proc.returncode ≠ 0) :
    run cmd proc true capture
      = Except.error ⟨proc.returncode, cmd,
          (if capture then some proc.stdout else none),
          (if capture then some proc.stderr else none)⟩ ∧
    run cmd proc false false = Except.ok (RunReturn.code proc.returncode) ∧
    run cmd proc false true = Except.ok (RunReturn.out (some proc.stdout)) := by
  refine ⟨?_, ?_, ?_⟩
  · simp [run, h]
  · simp [run]
  · simp [run]

theorem run_nonzero_exit_spec_witness :
    run ["false"] ⟨2, "o", "e"⟩ true false
        = Except.error ⟨2, ["false"], none, none⟩ ∧
    run ["false"] ⟨2, "o", "e"⟩ false false = Except.ok (RunReturn.code 2) ∧
    run ["false"] ⟨2, "o", "e"⟩ false true
        = Except.ok (RunReturn.out (some "o")) :=
  run_nonzero_exit_spec ["false"] ⟨2, "o", "e"⟩ false (by decide)

/-- C2: evaluation at the failing input: when an exception is raised
inside the scoped block, none of the three mutators restores its
pre-block snapshot, because the statements after `yield` never run
(there is no `try/finally` in the source): `add_to_path` leaves the
prepended search path, `changedir` leaves the target directory, and
`activate_venv` leaves the marker variables and the mutated search path. -/
theorem scoped_mutators_not_restored_on_exception :
    add_to_path "/v/bin" [("PATH", "/usr/bin")] id BlockExit.raised
        = some [("PATH", "/v/bin:/usr/bin")] ∧
    add_to_path "/v/bin" [("PATH", "/usr/bin")] id BlockExit.raised
        ≠ some [("PATH", "/usr/bin")] ∧
    changedir "/tmp/work" "/home/user" id BlockExit.raised = "/tmp/work" ∧
    changedir "/tmp/work" "/home/user" id BlockExit.raised ≠ "/home/user" ∧
    activate_venv "/venvs/v" [("PATH", "/usr/bin")] id BlockExit.raised
        = some [("PATH", "/venvs/v/bin:/usr/bin"), ("VIRTUAL_ENV", "/venvs/v"),
                ("__PYVENV_LAUNCHER__", "/venvs/v/bin/python")] ∧
    activate_venv "/venvs/v" [("PATH", "/usr/bin")] id BlockExit.raised
        ≠ some [("PATH", "/usr/bin")] := by
  refine ⟨rfl, by decide, rfl, by decide, rfl, by decide⟩

/-- C4: when the `activate_venv` block completes normally, the full
environment after the scope exits equals the complete pre-block snapshot,
whatever the block did to the environment, because the source clears the
environment and re-applies the saved copy. The hypotheses say that `PATH`
was present at entry (otherwise the scope is never entered: reading
`environ['PATH']` raises) and that the environment is a real one, binding
each variable once. -/
theorem activate_venv_restores_environment (venv_dir : String) (env : Env)
    (block : Env → Env) (p : String)
    (hPath : Env.getv env "PATH" = some p)
    (hNodup : (env.map Prod.fst).Nodup) :
    activate_venv venv_dir env block BlockExit.normal = some env := by
  have h2 : Env.getv (Env.setv (Env.setv env "VIRTUAL_ENV" venv_dir)
      "__PYVENV_LAUNCHER__" (venv_dir ++ "/bin/python")) "PATH" = some p := by
    rw [Env.getv_setv_ne _ _ _ _ (by decide),
      Env.getv_setv_ne _ _ _ _ (by decide), hPath]
  simp [activate_venv, add_to_path, h2, Env.update_nil env hNodup]

theorem activate_venv_restores_environment_witness :
    activate_venv "/venvs/v" [("PATH", "/usr/bin"), ("HOME", "/root")]
      id BlockExit.normal = some [("PATH", "/usr/bin"), ("HOME", "/root")] :=
  activate_venv_restores_environment "/venvs/v"
    [("PATH", "/usr/bin"), ("HOME", "/root")] id "/usr/bin"
    (by decide) (by decide)

/-- C7: counterexample to the claim as stated: the fixture's teardown
removes only the `venv` subdirectory tree, so the temporary directory
created by `mkdtemp` still exists after the scope exits. -/
theorem venv_fixture_keeps_tmp_root :
    (venv_fixture false "/usr/bin/python3" none [] ["tmp", "abc123"]
        TestOutcome.passed).finalFs = [["tmp", "abc123"]] ∧
    ["tmp", "abc123"] ∈ (venv_fixture false "/usr/bin/python3" none []
        ["tmp", "abc123"] TestOutcome.passed).finalFs := by
  refine ⟨by decide, by decide⟩

/-- C7 (amended): the fixture creates a fresh temporary directory, runs
the venv-creation command for the `venv` subdirectory inside it, yields
that venv path, and on scope exit removes the venv subdirectory tree —
regardless of whether the scope's tests passed or failed — while the
temporary directory itself is left in place. -/
theorem venv_fixture_spec (py2 : Bool) (sysexe : String)
    (python : Option String) (fs : Fs) (root : FPath)
    (outcome : TestOutcome) :
    (venv_fixture py2 sysexe python fs root outcome).value = root ++ ["venv"] ∧
    (venv_fixture py2 sysexe python fs root outcome).venvCmd
      = create_venv_cmd py2 sysexe
          (String.intercalate "/" (root ++ ["venv"])) python ∧
    root ++ ["venv"] ∉ (venv_fixture py2 sysexe python fs root outcome).finalFs ∧
    root ∈ (venv_fixture py2 sysexe python fs root outcome).finalFs ∧
    venv_fixture py2 sysexe python fs root TestOutcome.passed
      = venv_fixture py2 sysexe python fs root TestOutcome.failed := by
  refine ⟨rfl, rfl, ?_, ?_, rfl⟩
  · intro hmem
    simp only [venv_fixture, rmtree, List.mem_filter, Bool.not_eq_eq_eq_not,
      Bool.not_true] at hmem
    rw [FPath.under_refl (root ++ ["venv"])] at hmem
    exact Bool.noConfusion hmem.2
  · simp only [venv_fixture, rmtree, List.mem_filter]
    refine ⟨by simp, ?_⟩
    have hlen : ¬ FPath.under (root ++ ["venv"]) root = true := by
      intro h
      have := FPath.under_length (root ++ ["venv"]) root h
      simp at this
    simp [hlen]

end PypiserverTesting
